import Mathlib

/-!
Verification of the govee-discovery repository: a shallow embedding of the
command codec (control.py), the registry store (store.py) and the
interrogation engine (interrogate.py), with theorems settling the frozen
claims about color parsing, payload validation, registry merge semantics
and interrogation outcome classification.

Machine integers are modelled as Int/Nat (Python ints are unbounded), the
float arithmetic of the color scaler is modelled exactly over the rationals
(its inputs are small integers and the rounding boundaries are never within
floating-point error of the computed values), and network / clock effects
are modelled by passing the received-datagram trace and timestamps as
explicit arguments.
-/

namespace Govee

/-- Minimal JSON value model: what json.loads can return, restricted to the
shapes the repository inspects (objects, strings, numbers, booleans, null,
arrays).  Object fields keep insertion order, as Python dicts do. -/
inductive Json where
  | null
  | bool (b : Bool)
  | num (n : Int)
  | str (s : String)
  | arr (elems : List Json)
  | obj (fields : List (String × Json))

/-- Field access on a JSON object (Python dict.get): none on a non-object
or a missing key. -/
def Json.getField : Json → String → Option Json
  | .obj fields, k => fields.lookup k
  | _, _ => none

/-- isinstance(x, dict) on a decoded JSON value. -/
def Json.isObj : Json → Bool
  | .obj _ => true
  | _ => false

/-- Python truthiness of a decoded JSON value (bool(x) for the JSON-shaped
values): None, False, 0, empty string/list/dict are falsy. -/
def Json.pyTruthy : Json → Bool
  | .null => false
  | .bool b => b
  | .num n => n != 0
  | .str s => s ≠ ""
  | .arr elems => !elems.isEmpty
  | .obj fields => !fields.isEmpty

/-- Python truthiness of an Optional[str]: None and the empty string are
falsy. -/
def optStrTruthy : Option String → Bool
  | none => false
  | some s => s ≠ ""

/-- Python truthiness of an Optional JSON value. -/
def optJsonTruthy : Option Json → Bool
  | none => false
  | some j => j.pyTruthy

/-- Whitespace characters stripped by str.strip(), restricted to the
one-byte range actually reachable here (ASCII control whitespace, space,
NEL and NBSP). -/
def pyWhitespaceChar (c : Char) : Bool :=
  decide (c.toNat = 9 ∨ c.toNat = 10 ∨ c.toNat = 11 ∨ c.toNat = 12 ∨ c.toNat = 13
    ∨ c.toNat = 28 ∨ c.toNat = 29 ∨ c.toNat = 30 ∨ c.toNat = 31 ∨ c.toNat = 32
    ∨ c.toNat = 133 ∨ c.toNat = 160)

/-- str.strip(): drop leading and trailing whitespace. -/
def pyStrip (cs : List Char) : List Char :=
  ((cs.dropWhile pyWhitespaceChar).reverse.dropWhile pyWhitespaceChar).reverse

/-- COMMON_COLORS table of control.py: the fixed name → RGB map.  Note the
key is "warmwhite", with no hyphen. -/
def COMMON_COLORS : List (String × (Int × Int × Int)) :=
  [("red", (255, 0, 0)),
   ("green", (0, 255, 0)),
   ("blue", (0, 0, 255)),
   ("white", (255, 255, 255)),
   ("warmwhite", (255, 244, 229)),
   ("yellow", (255, 255, 0)),
   ("orange", (255, 165, 0)),
   ("purple", (128, 0, 128)),
   ("pink", (255, 105, 180)),
   ("cyan", (0, 255, 255)),
   ("magenta", (255, 0, 255))]

/-- Hex digit test of the COLOR_HEX_RE character class [0-9a-fA-F]. -/
def isHexDigitChar (c : Char) : Bool :=
  decide ((48 ≤ c.toNat ∧ c.toNat ≤ 57) ∨ (97 ≤ c.toNat ∧ c.toNat ≤ 102)
    ∨ (65 ≤ c.toNat ∧ c.toNat ≤ 70))

/-- Numeric value of a hex digit (int(d, 16) on one digit); 0 on a
non-digit (unreachable after the regex match). -/
def hexDigitVal (c : Char) : Int :=
  if 48 ≤ c.toNat ∧ c.toNat ≤ 57 then (c.toNat : Int) - 48
  else if 97 ≤ c.toNat ∧ c.toNat ≤ 102 then (c.toNat : Int) - 87
  else if 65 ≤ c.toNat ∧ c.toNat ≤ 70 then (c.toNat : Int) - 55
  else 0

/-- int(s[i:i+2], 16) on a two-hex-digit slice. -/
def hexPair (hi lo : Char) : Int :=
  16 * hexDigitVal hi + hexDigitVal lo

/-- Full match of COLOR_HEX_RE (regex anchored hash-optional followed by
exactly six hex digits): returns the captured six digits. -/
def colorHexMatch (cs : List Char) : Option (List Char) :=
  let body := if cs.head? = some '#' then cs.tail else cs
  if body.length = 6 ∧ body.all isHexDigitChar then some body else none

/-- parse_color of control.py: normalize (strip + lowercase), look up the
named-color table, otherwise match the hex literal; anything else is a
ValueError, modelled as Except.error. -/
def parse_color (value : String) : Except String (Int × Int × Int) :=
  let normalized : List Char := (pyStrip value.data).map Char.toLower
  match COMMON_COLORS.lookup (⟨normalized⟩ : String) with
  | some rgb => Except.ok rgb
  | none =>
    match colorHexMatch normalized with
    | some [c0, c1, c2, c3, c4, c5] =>
      Except.ok (hexPair c0 c1, hexPair c2 c3, hexPair c4 c5)
    | _ => Except.error ("unsupported color value: " ++ value)

/-- build_brightness_command of control.py: the payload is built
unconditionally, with no range check at this layer. -/
def build_brightness_command (value : Int) : Json :=
  .obj [("msg", .obj [("cmd", .str "brightness"),
                      ("data", .obj [("value", .num value)])])]

/-- The brightness branch of cmd_control in cli.py: the 0..100 range check
guards the call to build_brightness_command; out of range raises
ValueError before any payload is built or sent. -/
def cmd_control_brightness (value : Int) : Except String Json :=
  if ¬ (0 ≤ value ∧ value ≤ 100) then
    Except.error "brightness must be between 0 and 100"
  else
    Except.ok (build_brightness_command value)

/-- Python round(): round half to even (banker's rounding), over ℚ. -/
def roundHalfEven (q : ℚ) : ℤ :=
  let f : ℤ := ⌊q⌋
  let r : ℚ := q - (f : ℚ)
  if r < 1 / 2 then f
  else if 1 / 2 < r then f + 1
  else if f % 2 = 0 then f else f + 1

/-- The _scale_color helper of control.py: 255 is the identity scale, 100
rescales each channel with round(channel / 255 * 100); any other scale is
a ValueError. -/
def _scale_color (color : Int × Int × Int) (scale_max : Int) :
    Except String (Int × Int × Int) :=
  if ¬ (scale_max = 100 ∨ scale_max = 255) then
    Except.error "color scale must be 100 or 255"
  else if scale_max = 255 then
    Except.ok color
  else
    Except.ok (roundHalfEven ((color.1 : ℚ) / 255 * (scale_max : ℚ)),
      roundHalfEven ((color.2.1 : ℚ) / 255 * (scale_max : ℚ)),
      roundHalfEven ((color.2.2 : ℚ) / 255 * (scale_max : ℚ)))

/-- build_color_payload of control.py: validate the command name and the
scale, scale the color if present, validate the Kelvin value if present,
then enforce that the color family has a color and the colorwc family has
a Kelvin value, and finally assemble the JSON payload. -/
def build_color_payload (command : String) (color : Option (Int × Int × Int))
    (kelvin : Option Int) (scale_max : Int) : Except String Json :=
  let cmd : String := ⟨pyStrip command.data⟩
  if ¬ (cmd = "color" ∨ cmd = "colorwc" ∨ cmd = "setColor" ∨ cmd = "setColorWC") then
    Except.error ("unsupported color command: " ++ cmd)
  else if ¬ (scale_max = 100 ∨ scale_max = 255) then
    Except.error "color scale must be 100 or 255"
  else
    let scaledColor : Except String (Option (Int × Int × Int)) :=
      match color with
      | none => Except.ok none
      | some c =>
        match _scale_color c scale_max with
        | Except.ok sc => Except.ok (some sc)
        | Except.error e => Except.error e
    match scaledColor with
    | Except.error e => Except.error e
    | Except.ok scaled =>
      let kelvinCheck : Except String Unit :=
        match kelvin with
        | some k => if k ≤ 0 then Except.error "kelvin must be positive when provided" else Except.ok ()
        | none => Except.ok ()
      match kelvinCheck with
      | Except.error e => Except.error e
      | Except.ok _ =>
        if (cmd = "color" ∨ cmd = "setColor") ∧ scaled = none then
          Except.error (cmd ++ " command requires a color value")
        else if (cmd = "colorwc" ∨ cmd = "setColorWC") ∧ kelvin = none then
          Except.error (cmd ++ " command requires a positive kelvin value")
        else
          Except.ok (.obj [("msg", .obj [("cmd", .str cmd),
            ("data", .obj (
              (match scaled with
               | some (r, g, b) =>
                 [("color", Json.obj [("r", .num r), ("g", .num g), ("b", .num b)])]
               | none => [])
              ++ (match kelvin with
                  | some k => [("colorTemInKelvin", Json.num k)]
                  | none => [])))])])

/-- Outcome of the single blocking recvfrom of send_control_command:
socket.timeout, a socket-level OSError, another exception, or received
bytes carried as their safe_json_loads result (none when they do not
decode to JSON). -/
inductive SendRecv where
  | timedOut
  | oserror (msg : String)
  | exn (msg : String)
  | datagram (parsed : Option Json)

/-- What the network did when send_control_command ran: either the sendto
itself failed locally, or the datagram went out and the subsequent receive
had one of the SendRecv outcomes. -/
inductive SendNet where
  | sendFail (msg : String)
  | sent (recv : SendRecv)

/-- send_control_command of control.py, with the socket behaviour passed
in as a SendNet trace; the datagram case carries the safe_json_loads
result of the received bytes (none when they do not decode). -/
def send_control_command (wait_response : Bool) (net : SendNet) :
    Bool × Option Json × Option String :=
  match net with
  | .sendFail m => (false, none, some ("oserror:" ++ m))
  | .sent r =>
    if ¬ wait_response then (true, none, none)
    else
      match r with
      | .timedOut => (true, none, some "timeout")
      | .oserror m => (false, none, some ("oserror:" ++ m))
      | .exn m => (false, none, some ("error:" ++ m))
      | .datagram p =>
        match p with
        | some j => if j.isObj then (true, some j, none) else (true, none, some "invalid_json")
        | none => (true, none, some "invalid_json")

/-- One row of the devices table of store.py.  last_scan_payload holds the
serialized scan envelope; last_status_payload holds the cached devStatus
response (kept as a JSON value rather than its serialization). -/
structure DeviceRow where
  ip : Option String
  sku : Option String
  ble_version_hard : Option String
  ble_version_soft : Option String
  wifi_version_hard : Option String
  wifi_version_soft : Option String
  mac : Option String
  last_scan_payload : Option String
  last_status_payload : Option Json
  first_seen_ms : Int
  last_seen_ms : Int
  extra_json : Option String

/-- One row of the interrogations table of store.py (request/response JSON
kept as values rather than their serializations). -/
structure InterrogationRow where
  device_id : Option String
  ip : String
  cmd : String
  sent_at_ms : Int
  received_at_ms : Option Int
  success : Bool
  error : Option String
  request_json : Json
  response_json : Option Json

/-- The registry database state: the devices table keyed by device_id, the
append-only interrogations log, and the device_kv table keyed by
(device_id, key) with a (value, updated_at_ms) payload.  The scan_events
table and device_tags are not touched by the code under test here. -/
structure Store where
  devices : List (String × DeviceRow)
  interrogations : List InterrogationRow
  device_kv : List ((String × String) × (Json × Int))

/-- SQL COALESCE(excluded.x, devices.x): the incoming value when non-null,
otherwise the stored one. -/
def coalesce (incoming stored : Option String) : Option String :=
  match incoming with
  | some v => some v
  | none => stored

/-- Apply a row transformation to the table entry with the given key,
leaving all other rows unchanged (the effect of an UPDATE / DO UPDATE SET
clause keyed on a primary key). -/
def updateEntry {κ β : Type} [DecidableEq κ] (k : κ) (f : β → β) (e : κ × β) : κ × β :=
  if e.1 = k then (e.1, f e.2) else e

/-- The DO UPDATE SET clause of upsert_device_from_scan, as a function of
the existing row: COALESCE per nullable field, overwrite
last_scan_payload, set last_seen_ms unconditionally. -/
def mergeRow (ip sku ble_hw ble_sw wifi_hw wifi_sw mac : Option String)
    (scan_payload_raw : String) (seen_ms : Int) (row : DeviceRow) : DeviceRow :=
  { row with
    ip := coalesce ip row.ip,
    sku := coalesce sku row.sku,
    ble_version_hard := coalesce ble_hw row.ble_version_hard,
    ble_version_soft := coalesce ble_sw row.ble_version_soft,
    wifi_version_hard := coalesce wifi_hw row.wifi_version_hard,
    wifi_version_soft := coalesce wifi_sw row.wifi_version_soft,
    mac := coalesce mac row.mac,
    last_scan_payload := some scan_payload_raw,
    last_seen_ms := seen_ms }

/-- The freshly inserted devices row of upsert_device_from_scan for a new
device_id: first_seen = last_seen = the observation time, no cached status
payload, empty extra_json object. -/
def freshRow (ip sku ble_hw ble_sw wifi_hw wifi_sw mac : Option String)
    (scan_payload_raw : String) (seen_ms : Int) : DeviceRow :=
  { ip := ip, sku := sku,
    ble_version_hard := ble_hw, ble_version_soft := ble_sw,
    wifi_version_hard := wifi_hw, wifi_version_soft := wifi_sw,
    mac := mac,
    last_scan_payload := some scan_payload_raw,
    last_status_payload := none,
    first_seen_ms := seen_ms, last_seen_ms := seen_ms,
    extra_json := some "\x7b\x7d" }

/-- RegistryStore.upsert_device_from_scan: insert a fresh row when the
device_id is new (first_seen = last_seen = seen_ms), otherwise update the
existing row with COALESCE per nullable field, overwrite
last_scan_payload, and set last_seen_ms unconditionally; first_seen_ms and
last_status_payload are never touched on update. -/
def upsert_device_from_scan (db : Store) (device_id : String)
    (ip sku ble_hw ble_sw wifi_hw wifi_sw mac : Option String)
    (scan_payload_raw : String) (seen_ms : Int) : Store :=
  match db.devices.lookup device_id with
  | none =>
    { db with devices := db.devices ++
        [(device_id,
          freshRow ip sku ble_hw ble_sw wifi_hw wifi_sw mac scan_payload_raw seen_ms)] }
  | some _ =>
    { db with devices := db.devices.map (updateEntry device_id
        (mergeRow ip sku ble_hw ble_sw wifi_hw wifi_sw mac scan_payload_raw seen_ms)) }

/-- RegistryStore.record_interrogation: append the row; when the attempt
succeeded for a named device with a response to a devStatus command, also
overwrite that device's cached last_status_payload. -/
def record_interrogation (db : Store) (device_id : Option String) (ip cmd : String)
    (sent_at_ms : Int) (received_at_ms : Option Int) (success : Bool)
    (error : Option String) (request_obj : Json) (response_obj : Option Json) : Store :=
  let row : InterrogationRow :=
    { device_id := device_id, ip := ip, cmd := cmd,
      sent_at_ms := sent_at_ms, received_at_ms := received_at_ms,
      success := success, error := error,
      request_json := request_obj, response_json := response_obj }
  let db1 := { db with interrogations := db.interrogations ++ [row] }
  if success ∧ optStrTruthy device_id ∧ response_obj.isSome ∧ cmd = "devStatus" then
    match device_id, response_obj with
    | some id, some resp =>
      { db1 with devices := db1.devices.map (updateEntry id
          (fun row => { row with last_status_payload := some resp })) }
    | _, _ => db1
  else db1

/-- RegistryStore.set_kv: upsert by (device_id, key), overwriting the value
and the update timestamp on conflict.  The ambient now_ms() clock is
passed in as now. -/
def set_kv (db : Store) (device_id key : String) (value : Json) (now : Int) : Store :=
  match db.device_kv.lookup (device_id, key) with
  | some _ =>
    { db with device_kv := db.device_kv.map (updateEntry (device_id, key)
        (fun _ => (value, now))) }
  | none =>
    { db with device_kv := db.device_kv ++ [((device_id, key), (value, now))] }

/-- build_dev_status_request of interrogate.py: the devStatus envelope,
with device / sku fields included only when truthy. -/
def build_dev_status_request (device_id sku : Option String) : Json :=
  let deviceField : List (String × Json) :=
    match device_id with
    | some d => if d ≠ "" then [("device", .str d)] else []
    | none => []
  let skuField : List (String × Json) :=
    match sku with
    | some s => if s ≠ "" then [("sku", .str s)] else []
    | none => []
  .obj [("msg", .obj [("cmd", .str "devStatus"),
                      ("data", .obj (deviceField ++ skuField))])]

/-- is_dev_status_response of interrogate.py: the msg field must be an
object whose cmd field equals the string devStatus. -/
def is_dev_status_response (j : Json) : Bool :=
  match j.getField "msg" with
  | some (.obj ms) =>
    match ms.lookup "cmd" with
    | some (.str s) => s = "devStatus"
    | _ => false
  | _ => false

/-- extract_status_data of interrogate.py: the msg.data object's fields,
none when either nesting level is missing or not an object. -/
def extract_status_data (j : Json) : Option (List (String × Json)) :=
  match j.getField "msg" with
  | some (.obj ms) =>
    match ms.lookup "data" with
    | some (.obj ds) => some ds
    | _ => none
  | _ => none

/-- The socket state visible to interrogate_device_dev_status: its
configured receive timeout (None = blocking). -/
structure Sock where
  timeout : Option ℚ

/-- One iteration of the receive loop of interrogate_device_dev_status:
the remaining time computed from the deadline (positive, or the iteration
would have raised socket.timeout) and what recvfrom then did; a received
datagram carries its safe_json_loads result. -/
structure LoopStep where
  remaining : ℚ
  recv : SendRecv

/-- Exit of the receive loop: an error return from inside the loop, or the
break once a JSON object was received. -/
inductive LoopExit where
  | errorReturn (err : String)
  | gotObj (j : Json)

/-- The receive loop of interrogate_device_dev_status over its iteration
trace.  When a deadline exists the socket timeout is shrunk to the
remaining time before each receive; trace exhaustion models the iteration
in which the remaining time reached zero (raising socket.timeout, caught
as the timeout return).  Non-object datagrams loop again. -/
def interrogate_loop (orig : Option ℚ) (sock : Sock) :
    List LoopStep → Sock × LoopExit
  | [] => (sock, .errorReturn "timeout")
  | step :: rest =>
    let sock1 : Sock :=
      match orig with
      | some _ => { sock with timeout := some step.remaining }
      | none => sock
    match step.recv with
    | .timedOut => (sock1, .errorReturn "timeout")
    | .oserror m => (sock1, .errorReturn ("oserror:" ++ m))
    | .exn m => (sock1, .errorReturn ("error:" ++ m))
    | .datagram p =>
      match p with
      | some j => if j.isObj then (sock1, .gotObj j) else interrogate_loop orig sock1 rest
      | none => interrogate_loop orig sock1 rest

/-- The finally block of interrogate_device_dev_status: restore the
original timeout when one was set. -/
def restore_timeout (orig : Option ℚ) (sock : Sock) : Sock :=
  match orig with
  | some t => { sock with timeout := some t }
  | none => sock

/-- interrogate_device_dev_status of interrogate.py: send the devStatus
request, loop receiving until a JSON object arrives or the deadline
elapses, restore the socket timeout, and classify the reply (a JSON
object with a different command name is still a success, tagged
unexpected_cmd). -/
def interrogate_device_dev_status (sock : Sock) (trace : List LoopStep)
    (device_id sku : Option String) :
    Sock × (Bool × Option Json × Option String) :=
  let orig := sock.timeout
  let result := interrogate_loop orig sock trace
  let sock2 := restore_timeout orig result.1
  match result.2 with
  | .errorReturn e => (sock2, (false, none, some e))
  | .gotObj j =>
    if ¬ is_dev_status_response j then (sock2, (true, some j, some "unexpected_cmd"))
    else (sock2, (true, some j, none))

/-- enrich_from_dev_status of interrogate.py: project the four well-known
status fields of msg.data into device_kv rows; a missing msg.data (or a
falsy empty one) writes nothing.  The ambient clock of set_kv is passed in
as now. -/
def enrich_from_dev_status (db : Store) (device_id : String) (status_obj : Json)
    (now : Int) : Store :=
  match extract_status_data status_obj with
  | none => db
  | some [] => db
  | some data =>
    let db1 := match data.lookup "onOff" with
      | some v => set_kv db device_id "status.onOff" v now
      | none => db
    let db2 := match data.lookup "brightness" with
      | some v => set_kv db1 device_id "status.brightness" v now
      | none => db1
    let db3 := match data.lookup "color" with
      | some v => set_kv db2 device_id "status.color" v now
      | none => db2
    match data.lookup "colorTemInKelvin" with
    | some v => set_kv db3 device_id "status.colorTemInKelvin" v now
    | none => db3

/-- One interrogation target of interrogate_all. -/
structure Target where
  device_id : Option String
  ip : String
  sku : Option String

/-- The per-target job fed to the interrogate_all loop: the target, the
receive-loop trace its interrogation sees, and the two now_ms() readings
(at send time, and after the exchange — the latter also stamps any
device_kv rows written by enrichment). -/
structure InterrogateJob where
  target : Target
  trace : List LoopStep
  sent_ms : Int
  recv_ms : Int

/-- The body of the interrogate_all loop for one target: interrogate,
record the Interrogation row (received_at only on success), and enrich
from the response when the attempt succeeded with a truthy response for a
known (truthy) device id and enrichment is on. -/
def interrogate_one (db : Store) (sock : Sock) (enrich : Bool) (job : InterrogateJob) :
    Store × Sock :=
  let t := job.target
  let r := interrogate_device_dev_status sock job.trace t.device_id t.sku
  let sock1 := r.1
  let ok := r.2.1
  let resp := r.2.2.1
  let err := r.2.2.2
  let received : Option Int := if ok then some job.recv_ms else none
  let db1 := record_interrogation db t.device_id t.ip "devStatus" job.sent_ms
    received ok err (build_dev_status_request t.device_id t.sku) resp
  let db2 :=
    if ok ∧ optJsonTruthy resp ∧ enrich ∧ optStrTruthy t.device_id then
      match resp, t.device_id with
      | some j, some id => enrich_from_dev_status db1 id j job.recv_ms
      | _, _ => db1
    else db1
  (db2, sock1)

/-- The strictly sequential target loop of interrogate_all. -/
def interrogate_all_loop (db : Store) (sock : Sock) (enrich : Bool) :
    List InterrogateJob → Store × Sock
  | [] => (db, sock)
  | job :: rest =>
    let r := interrogate_one db sock enrich job
    interrogate_all_loop r.1 r.2 enrich rest

/-- The 22 characters accepted by the hex-digit class of COLOR_HEX_RE. -/
def hexDigitChars : List Char :=
  ['F','E','D','C','B','A','f','e','d','c','b','a','9','8','7','6','5','4','3','2','1','0']

/-- The whitespace characters of pyWhitespaceChar, as a list. -/
def wsChars : List Char :=
  ['\t','\n','\x0b','\x0c','\r','\x1c','\x1d','\x1e','\x1f',' ','\x85','\xa0']

instance {e a : Type} [DecidableEq e] [DecidableEq a] : DecidableEq (Except e a) := fun x y =>
  match x, y with
  | .ok v, .ok w => decidable_of_iff (v = w) (by simp)
  | .error v, .error w => decidable_of_iff (v = w) (by simp)
  | .ok _, .error _ => isFalse (by simp)
  | .error _, .ok _ => isFalse (by simp)

lemma interrogate_loop_none_sock (sock : Sock) (trace : List LoopStep) :
    (interrogate_loop none sock trace).1 = sock := by
  induction trace with
  | nil => rfl
  | cons step rest ih =>
    rw [interrogate_loop]
    cases h : step.recv with
    | timedOut => rfl
    | oserror m => rfl
    | exn m => rfl
    | datagram p =>
      cases p with
      | none => simpa using ih
      | some j =>
        by_cases hj : j.isObj <;> simp [hj, ih]

lemma interrogate_device_sock (sock : Sock) (trace : List LoopStep)
    (device_id sku : Option String) :
    (interrogate_device_dev_status sock trace device_id sku).1 =
      restore_timeout sock.timeout (interrogate_loop sock.timeout sock trace).1 := by
  rw [interrogate_device_dev_status]
  rcases hr : (interrogate_loop sock.timeout sock trace).2 with e | j
  · simp [hr]
  · by_cases hj : is_dev_status_response j <;> simp [hr, hj]

/-- C9: interrogate_device_dev_status leaves the socket's configured
receive timeout unchanged across the call, on every exit path, despite
shrinking it to the remaining deadline inside the receive loop. -/
theorem interrogate_device_restores_timeout (sock : Sock) (trace : List LoopStep)
    (device_id sku : Option String) :
    ((interrogate_device_dev_status sock trace device_id sku).1).timeout = sock.timeout := by
  rw [interrogate_device_sock]
  cases h : sock.timeout with
  | none => simp [h, restore_timeout, interrogate_loop_none_sock]
  | some t => rfl

/-- C8: send_control_command with a response wait classifies outcomes as
(true, response, none) for a received JSON object, (true, none, timeout)
when nothing arrives in time, (true, none, invalid_json) when bytes arrive
but do not decode to a JSON object, and reports delivered = false only for
a local socket-level failure (a failed sendto, or an OSError or other
exception on the receive). -/
theorem send_control_command_classification :
    (∀ j : Json, j.isObj = true →
      send_control_command true (.sent (.datagram (some j))) = (true, some j, none))
    ∧ send_control_command true (.sent .timedOut) = (true, none, some "timeout")
    ∧ (∀ p : Option Json, (∀ j, p = some j → j.isObj = false) →
      send_control_command true (.sent (.datagram p)) = (true, none, some "invalid_json"))
    ∧ (∀ net : SendNet, (send_control_command true net).1 = false →
      (∃ m, net = .sendFail m) ∨ (∃ m, net = .sent (.oserror m)) ∨ (∃ m, net = .sent (.exn m))) := by
  refine ⟨fun j hj => by simp [send_control_command, hj], rfl, fun p hp => ?_, fun net hnet => ?_⟩
  · cases p with
    | none => rfl
    | some j => simp [send_control_command, hp j rfl]
  · cases net with
    | sendFail m => exact Or.inl ⟨m, rfl⟩
    | sent r =>
      cases r with
      | timedOut => simp [send_control_command] at hnet
      | oserror m => exact Or.inr (Or.inl ⟨m, rfl⟩)
      | exn m => exact Or.inr (Or.inr ⟨m, rfl⟩)
      | datagram p =>
        exfalso
        cases p with
        | none => simp [send_control_command] at hnet
        | some j =>
          by_cases hj : j.isObj <;> simp [send_control_command, hj] at hnet

/-- Witness for C8: the classification applied to a concrete object reply,
a concrete undecodable reply and a concrete local send failure. -/
theorem send_control_command_classification_witness :
    send_control_command true (.sent (.datagram (some (Json.obj [("msg", Json.null)])))) =
      (true, some (Json.obj [("msg", Json.null)]), none)
    ∧ send_control_command true (.sent (.datagram none)) = (true, none, some "invalid_json")
    ∧ ((∃ m, SendNet.sendFail "unreachable" = SendNet.sendFail m)
        ∨ (∃ m, SendNet.sendFail "unreachable" = SendNet.sent (.oserror m))
        ∨ (∃ m, SendNet.sendFail "unreachable" = SendNet.sent (.exn m))) :=
  ⟨send_control_command_classification.1 (Json.obj [("msg", Json.null)]) rfl,
   send_control_command_classification.2.2.1 none (fun j h => by simp at h),
   send_control_command_classification.2.2.2 (SendNet.sendFail "unreachable") rfl⟩

/-- C4: at scale 100 every channel is rescaled with round(channel / 255 *
100) under round-half-to-even arithmetic; the boundary triple (255,128,0)
scales to (100,50,0); scale 255 is the identity. -/
theorem scale_color_spec :
    (∀ r g b : Int, 0 ≤ r ∧ r ≤ 255 → 0 ≤ g ∧ g ≤ 255 → 0 ≤ b ∧ b ≤ 255 →
      _scale_color (r, g, b) 100 =
        Except.ok (roundHalfEven ((r : ℚ) / 255 * 100),
                   roundHalfEven ((g : ℚ) / 255 * 100),
                   roundHalfEven ((b : ℚ) / 255 * 100)))
    ∧ _scale_color (255, 128, 0) 100 = Except.ok (100, 50, 0)
    ∧ ∀ c : Int × Int × Int, _scale_color c 255 = Except.ok c := by
  refine ⟨fun r g b _ _ _ => by norm_num [_scale_color], ?_, fun c => by simp [_scale_color]⟩
  norm_num [_scale_color, roundHalfEven]

/-- Witness for C4: the channel rule applied to the concrete triple
(10, 20, 30). -/
theorem scale_color_spec_witness :
    _scale_color (10, 20, 30) 100 =
      Except.ok (roundHalfEven ((10 : ℚ) / 255 * 100),
                 roundHalfEven ((20 : ℚ) / 255 * 100),
                 roundHalfEven ((30 : ℚ) / 255 * 100)) :=
  scale_color_spec.1 10 20 30 (by decide) (by decide) (by decide)

/-- C5: the CLI brightness path rejects any integer outside 0..100 with a
validation error (no clamping), rejects 101 and -1 in particular, and
accepts 0 and 100, producing the brightness payload. -/
theorem brightness_validation :
    (∀ v : Int, ¬ (0 ≤ v ∧ v ≤ 100) →
      cmd_control_brightness v = Except.error "brightness must be between 0 and 100")
    ∧ cmd_control_brightness 101 = Except.error "brightness must be between 0 and 100"
    ∧ cmd_control_brightness (-1) = Except.error "brightness must be between 0 and 100"
    ∧ cmd_control_brightness 0 =
        Except.ok (.obj [("msg", .obj [("cmd", .str "brightness"),
                                       ("data", .obj [("value", .num 0)])])])
    ∧ cmd_control_brightness 100 =
        Except.ok (.obj [("msg", .obj [("cmd", .str "brightness"),
                                       ("data", .obj [("value", .num 100)])])]) := by
  exact ⟨fun v hv => by simp [cmd_control_brightness, hv], rfl, rfl, rfl, rfl⟩

/-- Witness for C5: the out-of-range rule applied to the concrete value
200. -/
theorem brightness_validation_witness :
    cmd_control_brightness 200 = Except.error "brightness must be between 0 and 100" :=
  brightness_validation.1 200 (by decide)

lemma eq_char_ofNat {c : Char} {n : Nat} (h : c.toNat = n) : c = Char.ofNat n := by
  rw [← h, Char.ofNat_toNat]

lemma hexChar_mem (c : Char) (h : isHexDigitChar c = true) : c ∈ hexDigitChars := by
  have hn : (48 ≤ c.toNat ∧ c.toNat ≤ 57) ∨ (97 ≤ c.toNat ∧ c.toNat ≤ 102)
      ∨ (65 ≤ c.toNat ∧ c.toNat ≤ 70) := by
    simpa [isHexDigitChar] using h
  obtain ⟨h1, h2⟩ | ⟨h1, h2⟩ | ⟨h1, h2⟩ := hn <;>
  · set n := c.toNat with hcn
    interval_cases n <;> simp [eq_char_ofNat hcn.symm, hexDigitChars, Char.ofNat]

lemma wsChar_mem (c : Char) (h : pyWhitespaceChar c = true) : c ∈ wsChars := by
  have hn : c.toNat = 9 ∨ c.toNat = 10 ∨ c.toNat = 11 ∨ c.toNat = 12 ∨ c.toNat = 13
      ∨ c.toNat = 28 ∨ c.toNat = 29 ∨ c.toNat = 30 ∨ c.toNat = 31 ∨ c.toNat = 32
      ∨ c.toNat = 133 ∨ c.toNat = 160 := by
    simpa [pyWhitespaceChar] using h
  rcases hn with h'|h'|h'|h'|h'|h'|h'|h'|h'|h'|h'|h' <;>
    simp [eq_char_ofNat h', wsChars, Char.ofNat]

lemma toLower_ws_self (c : Char) (h : pyWhitespaceChar c = true) : c.toLower = c := by
  have hm := wsChar_mem c h
  fin_cases hm <;> decide

lemma toLower_hex_facts (c : Char) (h : isHexDigitChar c = true) :
    ((48 ≤ c.toLower.toNat ∧ c.toLower.toNat ≤ 57) ∨ (97 ≤ c.toLower.toNat ∧ c.toLower.toNat ≤ 102))
    ∧ hexDigitVal c.toLower = hexDigitVal c
    ∧ isHexDigitChar c.toLower = true
    ∧ pyWhitespaceChar c = false := by
  have hm := hexChar_mem c h
  fin_cases hm <;> exact ⟨by decide, by decide, by decide, by decide⟩

lemma dropWhile_eq_self {p : Char → Bool} : ∀ {cs : List Char}, (∀ c ∈ cs, p c = false) →
    cs.dropWhile p = cs
  | [], _ => rfl
  | a :: l, h => by simp [List.dropWhile_cons, h a (by simp)]

lemma pyStrip_eq_self {cs : List Char} (h : ∀ c ∈ cs, pyWhitespaceChar c = false) :
    pyStrip cs = cs := by
  rw [pyStrip, dropWhile_eq_self h, dropWhile_eq_self, List.reverse_reverse]
  intro c hc
  exact h c (List.mem_reverse.mp hc)

lemma lookup_eq_none_of {α : Type} : ∀ (l : List (String × α)) (s : String),
    (∀ p ∈ l, p.1 ≠ s) → l.lookup s = none
  | [], _, _ => rfl
  | (k, v) :: tl, s, h => by
    have hk : (s == k) = false := beq_eq_false_iff_ne.mpr (Ne.symm (h (k, v) (by simp)))
    simp only [List.lookup, hk]
    exact lookup_eq_none_of tl s fun p hp => h p (by simp [hp])

lemma lookup_hex6_none (x0 x1 x2 x3 x4 x5 : Char)
    (h0 : (48 ≤ x0.toNat ∧ x0.toNat ≤ 57) ∨ (97 ≤ x0.toNat ∧ x0.toNat ≤ 102)) :
    COMMON_COLORS.lookup (⟨[x0, x1, x2, x3, x4, x5]⟩ : String) = none := by
  apply lookup_eq_none_of
  intro p hp heq
  have hd : p.1.data = [x0, x1, x2, x3, x4, x5] := congrArg String.data heq
  fin_cases hp <;> simp_all <;>
    · obtain ⟨ha, -⟩ := hd
      have hna : x0.toNat = _ := congrArg Char.toNat ha.symm
      rcases h0 with ⟨a, b⟩ | ⟨a, b⟩ <;> simp at hna <;> omega

lemma lookup_hash_hex6_none (x0 x1 x2 x3 x4 x5 : Char) :
    COMMON_COLORS.lookup (⟨'#' :: [x0, x1, x2, x3, x4, x5]⟩ : String) = none := by
  apply lookup_eq_none_of
  intro p hp heq
  have hd : p.1.data = '#' :: [x0, x1, x2, x3, x4, x5] := congrArg String.data heq
  fin_cases hp <;> simp_all

/-- Counterexample for C2 as stated: the table key is written warmwhite,
so the hyphenated spelling warm-white of the claim is rejected; moreover
the input is stripped first, so the padded string of an otherwise valid
name (not itself a table name or hex literal) still parses. -/
theorem parse_color_claim_counterexample :
    parse_color "warm-white" = Except.error "unsupported color value: warm-white"
    ∧ parse_color " red " = Except.ok (255, 0, 0) := by
  exact ⟨by decide, by decide⟩

/-- C2 (amended): every table name — with warmwhite spelled without a
hyphen — in any letter case parses to its documented triple; every
6-hex-digit literal, with or without a leading hash mark and in any
letter case, parses to its digit value triple; and every string whose
stripped, lowercased form is neither a table name nor such a literal is a
validation error. -/
theorem parse_color_table_and_hex :
    (∀ (s name : String) (rgb : Int × Int × Int),
      (name, rgb) ∈ COMMON_COLORS →
      s.data.map Char.toLower = name.data →
      parse_color s = Except.ok rgb)
    ∧ (∀ (s : String) (withHash : Bool) (c0 c1 c2 c3 c4 c5 : Char),
      (∀ c ∈ [c0, c1, c2, c3, c4, c5], isHexDigitChar c = true) →
      s.data = (if withHash then ['#'] else []) ++ [c0, c1, c2, c3, c4, c5] →
      parse_color s = Except.ok (hexPair c0 c1, hexPair c2 c3, hexPair c4 c5))
    ∧ (∀ s : String,
      COMMON_COLORS.lookup (⟨(pyStrip s.data).map Char.toLower⟩ : String) = none →
      colorHexMatch ((pyStrip s.data).map Char.toLower) = none →
      parse_color s = Except.error ("unsupported color value: " ++ s)) := by
  refine ⟨?_, ?_, ?_⟩
  · intro s name rgb hmem hmap
    fin_cases hmem <;>
    · have hnws : ∀ c ∈ s.data, pyWhitespaceChar c = false := by
        intro c hc
        by_contra hws
        rw [Bool.not_eq_false] at hws
        have h2 := hmap ▸ List.mem_map_of_mem Char.toLower hc
        rw [toLower_ws_self c hws] at h2
        have hm := wsChar_mem c hws
        fin_cases hm <;> simp_all
      have hstrip := pyStrip_eq_self hnws
      simp only [parse_color, hstrip, hmap]
      rfl
  · intro s withHash c0 c1 c2 c3 c4 c5 hhex hdata
    have f0 := toLower_hex_facts c0 (hhex c0 (by simp))
    have f1 := toLower_hex_facts c1 (hhex c1 (by simp))
    have f2 := toLower_hex_facts c2 (hhex c2 (by simp))
    have f3 := toLower_hex_facts c3 (hhex c3 (by simp))
    have f4 := toLower_hex_facts c4 (hhex c4 (by simp))
    have f5 := toLower_hex_facts c5 (hhex c5 (by simp))
    have hnws : ∀ c ∈ s.data, pyWhitespaceChar c = false := by
      intro c hc
      rw [hdata] at hc
      rcases List.mem_append.mp hc with hpre | hdig
      · have hc' : c = '#' := by cases withHash <;> simp_all
        subst hc'; decide
      · simp only [List.mem_cons, List.not_mem_nil, or_false] at hdig
        rcases hdig with rfl | rfl | rfl | rfl | rfl | rfl
        exacts [f0.2.2.2, f1.2.2.2, f2.2.2.2, f3.2.2.2, f4.2.2.2, f5.2.2.2]
    have hstrip := pyStrip_eq_self hnws
    have hall : ([c0.toLower, c1.toLower, c2.toLower, c3.toLower, c4.toLower,
        c5.toLower].all isHexDigitChar) = true := by
      simp [f0.2.2.1, f1.2.2.1, f2.2.2.1, f3.2.2.1, f4.2.2.1, f5.2.2.1]
    have hpair : hexPair c0.toLower c1.toLower = hexPair c0 c1
        ∧ hexPair c2.toLower c3.toLower = hexPair c2 c3
        ∧ hexPair c4.toLower c5.toLower = hexPair c4 c5 := by
      refine ⟨?_, ?_, ?_⟩ <;> simp [hexPair, f0.2.1, f1.2.1, f2.2.1, f3.2.1, f4.2.1, f5.2.1]
    cases withHash
    · have hdata' : s.data = [c0, c1, c2, c3, c4, c5] := by simpa using hdata
      have hne : (([c0.toLower, c1.toLower, c2.toLower, c3.toLower, c4.toLower,
          c5.toLower] : List Char).head? = some '#') = False := by
        simp only [List.head?, Option.some.injEq, eq_iff_iff, iff_false]
        intro h
        have hna := congrArg Char.toNat h
        rcases f0.1 with ⟨a, b⟩ | ⟨a, b⟩ <;> simp at hna <;> omega
      simp only [parse_color]
      rw [hstrip, hdata']
      simp only [List.map_cons, List.map_nil]
      rw [lookup_hex6_none _ _ _ _ _ _ f0.1]
      simp only [colorHexMatch, hne, if_false, List.length_cons, List.length_nil, hall]
      simp [hpair.1, hpair.2.1, hpair.2.2, f0.2.2.1, f1.2.2.1, f2.2.2.1, f3.2.2.1,
        f4.2.2.1, f5.2.2.1]
    · have hdata' : s.data = '#' :: [c0, c1, c2, c3, c4, c5] := by simpa using hdata
      simp only [parse_color]
      rw [hstrip, hdata']
      simp only [List.map_cons, List.map_nil, show Char.toLower '#' = '#' from by decide]
      rw [lookup_hash_hex6_none]
      simp only [colorHexMatch, List.head?, Option.some.injEq, if_pos rfl, List.tail_cons,
        List.length_cons, List.length_nil, hall]
      simp [hpair.1, hpair.2.1, hpair.2.2, f0.2.2.1, f1.2.2.1, f2.2.2.1, f3.2.2.1,
        f4.2.2.1, f5.2.2.1]
  · intro s h1 h2
    simp only [parse_color, h1, h2]

/-- Witness for C2: the three clauses applied to an upper-case table name,
a concrete hex literal with a hash mark, and a concrete rejected string. -/
theorem parse_color_table_and_hex_witness :
    parse_color "RED" = Except.ok (255, 0, 0)
    ∧ parse_color "#FF8800" = Except.ok (hexPair 'F' 'F', hexPair '8' '8', hexPair '0' '0')
    ∧ parse_color "nope" = Except.error ("unsupported color value: " ++ "nope") :=
  ⟨parse_color_table_and_hex.1 "RED" "red" (255, 0, 0) (by decide) (by decide),
   parse_color_table_and_hex.2.1 "#FF8800" true 'F' 'F' '8' '8' '0' '0' (by decide) (by decide),
   parse_color_table_and_hex.2.2 "nope" (by decide) (by decide)⟩

lemma strip_cmd_color : (⟨pyStrip ['c', 'o', 'l', 'o', 'r']⟩ : String) = "color" := rfl

lemma strip_cmd_setColor :
    (⟨pyStrip ['s', 'e', 't', 'C', 'o', 'l', 'o', 'r']⟩ : String) = "setColor" := rfl

lemma strip_cmd_colorwc :
    (⟨pyStrip ['c', 'o', 'l', 'o', 'r', 'w', 'c']⟩ : String) = "colorwc" := rfl

lemma strip_cmd_setColorWC :
    (⟨pyStrip ['s', 'e', 't', 'C', 'o', 'l', 'o', 'r', 'W', 'C']⟩ : String) = "setColorWC" := rfl

/-- Counterexample for C3 as stated: for the requires-color family,
supplying only a positive Kelvin value does not succeed — the color
requirement is checked regardless of Kelvin. -/
theorem build_color_payload_kelvin_only_counterexample :
    build_color_payload "color" none (some 3000) 255 =
      Except.error "color command requires a color value" := rfl

/-- C3 (amended): for the requires-color family (color, setColor) a
missing color is a validation error before any network I/O regardless of
the Kelvin argument — kelvin-only also fails — while supplying only a
positive Kelvin value succeeds for the requires-temperature family
(colorwc, setColorWC). -/
theorem build_color_payload_requires_color :
    (∀ cmd : String, cmd = "color" ∨ cmd = "setColor" →
      ∀ (kelvin : Option Int) (scale_max : Int), scale_max = 100 ∨ scale_max = 255 →
      ∃ e, build_color_payload cmd none kelvin scale_max = Except.error e)
    ∧ (∀ cmd : String, cmd = "colorwc" ∨ cmd = "setColorWC" →
      ∀ k : Int, 0 < k →
      ∃ p, build_color_payload cmd none (some k) 255 = Except.ok p) := by
  constructor
  · rintro cmd hcmd kelvin scale_max hscale
    rcases kelvin with - | k
    · rcases hcmd with rfl | rfl <;> rcases hscale with rfl | rfl <;> exact ⟨_, rfl⟩
    · by_cases hk : k ≤ 0
      · refine ⟨"kelvin must be positive when provided", ?_⟩
        rcases hcmd with rfl | rfl <;> rcases hscale with rfl | rfl <;>
          simp [build_color_payload, strip_cmd_color, strip_cmd_setColor, hk]
      · rcases hcmd with rfl | rfl <;> rcases hscale with rfl | rfl
        · exact ⟨"color command requires a color value",
            by simp [build_color_payload, strip_cmd_color, hk]⟩
        · exact ⟨"color command requires a color value",
            by simp [build_color_payload, strip_cmd_color, hk]⟩
        · exact ⟨"setColor command requires a color value",
            by simp [build_color_payload, strip_cmd_setColor, hk]⟩
        · exact ⟨"setColor command requires a color value",
            by simp [build_color_payload, strip_cmd_setColor, hk]⟩
  · rintro cmd hcmd k hk
    have hk' : ¬ (k ≤ 0) := by omega
    rcases hcmd with rfl | rfl
    · exact ⟨Json.obj [("msg", Json.obj [("cmd", Json.str "colorwc"),
          ("data", Json.obj [("colorTemInKelvin", Json.num k)])])],
        by simp [build_color_payload, strip_cmd_colorwc, hk']⟩
    · exact ⟨Json.obj [("msg", Json.obj [("cmd", Json.str "setColorWC"),
          ("data", Json.obj [("colorTemInKelvin", Json.num k)])])],
        by simp [build_color_payload, strip_cmd_setColorWC, hk']⟩

/-- Witness for C3: both clauses at the concrete Kelvin value 3000. -/
theorem build_color_payload_requires_color_witness :
    (∃ e, build_color_payload "color" none (some 3000) 255 = Except.error e)
    ∧ (∃ p, build_color_payload "colorwc" none (some 3000) 255 = Except.ok p) :=
  ⟨build_color_payload_requires_color.1 "color" (Or.inl rfl) (some 3000) 255 (Or.inr rfl),
   build_color_payload_requires_color.2 "colorwc" (Or.inl rfl) 3000 (by decide)⟩


lemma coalesce_self (a : Option String) : coalesce a a = a := by cases a <;> rfl

lemma coalesce_coalesce (a b : Option String) : coalesce a (coalesce a b) = coalesce a b := by
  cases a <;> rfl

lemma lookup_map_updateEntry {κ β : Type} [DecidableEq κ] [BEq κ] [LawfulBEq κ]
    (l : List (κ × β)) (k : κ) (f : β → β) :
    (l.map (updateEntry k f)).lookup k = (l.lookup k).map f := by
  induction l with
  | nil => rfl
  | cons hd tl ih =>
    obtain ⟨q, v⟩ := hd
    by_cases h : q = k
    · subst h
      rw [List.map_cons, show updateEntry q f (q, v) = (q, f v) from by simp [updateEntry]]
      simp [List.lookup]
    · have hb : (k == q) = false := beq_eq_false_iff_ne.mpr (Ne.symm h)
      rw [List.map_cons, show updateEntry k f (q, v) = (q, v) from by simp [updateEntry, h]]
      simp [List.lookup, hb, ih]

lemma lookup_append_right {κ β : Type} [BEq κ] (l1 l2 : List (κ × β)) (k : κ)
    (h : l1.lookup k = none) : (l1 ++ l2).lookup k = l2.lookup k := by
  induction l1 with
  | nil => rfl
  | cons hd tl ih =>
    obtain ⟨q, v⟩ := hd
    cases hq : (k == q) with
    | true => simp [List.lookup, hq] at h
    | false =>
      simp only [List.lookup, hq] at h
      simp only [List.cons_append, List.lookup, hq]
      exact ih h

lemma map_updateEntry_of_lookup_none {κ β : Type} [DecidableEq κ] [BEq κ] [LawfulBEq κ]
    (l : List (κ × β)) (k : κ) (f : β → β)
    (h : l.lookup k = none) : l.map (updateEntry k f) = l := by
  induction l with
  | nil => rfl
  | cons hd tl ih =>
    obtain ⟨q, v⟩ := hd
    cases hq : (k == q) with
    | true => simp [List.lookup, hq] at h
    | false =>
      simp only [List.lookup, hq] at h
      have hne : ¬ (q = k) := by
        intro he
        subst he
        simp at hq
      rw [List.map_cons, show updateEntry k f (q, v) = (q, v) from by simp [updateEntry, hne],
        ih h]

lemma map_updateEntry_comp {κ β : Type} [DecidableEq κ] (l : List (κ × β)) (k : κ)
    (f g : β → β) :
    (l.map (updateEntry k g)).map (updateEntry k f)
      = l.map (updateEntry k (fun b => f (g b))) := by
  induction l with
  | nil => rfl
  | cons hd tl ih =>
    obtain ⟨q, v⟩ := hd
    by_cases h : q = k <;> simp [updateEntry, h, ih]

lemma map_updateEntry_congr {κ β : Type} [DecidableEq κ] (l : List (κ × β)) (k : κ)
    (f g : β → β) (h : ∀ b, f b = g b) :
    l.map (updateEntry k f) = l.map (updateEntry k g) := by
  induction l with
  | nil => rfl
  | cons hd tl ih =>
    obtain ⟨q, v⟩ := hd
    by_cases hq : q = k <;> simp [updateEntry, hq, ih, h]

/-- The devices row produced by an upsert for the observed device_id:
fresh on insert, COALESCE-merged on update. -/
lemma lookup_upsert (db : Store) (dev : String) (ip sku bh bs wh ws mac : Option String)
    (raw : String) (seen : Int) :
    (upsert_device_from_scan db dev ip sku bh bs wh ws mac raw seen).devices.lookup dev =
      some (match db.devices.lookup dev with
        | none => freshRow ip sku bh bs wh ws mac raw seen
        | some old => mergeRow ip sku bh bs wh ws mac raw seen old) := by
  rw [upsert_device_from_scan]
  cases h : db.devices.lookup dev with
  | none =>
    simp only [h]
    rw [lookup_append_right _ _ _ h]
    simp [List.lookup]
  | some old =>
    simp only [h]
    rw [lookup_map_updateEntry, h]
    rfl

lemma upsert_eq_insert (db : Store) (dev : String) (ip sku bh bs wh ws mac : Option String)
    (raw : String) (seen : Int) (h : db.devices.lookup dev = none) :
    upsert_device_from_scan db dev ip sku bh bs wh ws mac raw seen =
      { db with devices := db.devices ++ [(dev, freshRow ip sku bh bs wh ws mac raw seen)] } := by
  rw [upsert_device_from_scan, h]

lemma upsert_eq_update (db : Store) (dev : String) (ip sku bh bs wh ws mac : Option String)
    (raw : String) (seen : Int) (old : DeviceRow) (h : db.devices.lookup dev = some old) :
    upsert_device_from_scan db dev ip sku bh bs wh ws mac raw seen =
      { db with devices := db.devices.map (updateEntry dev
          (mergeRow ip sku bh bs wh ws mac raw seen)) } := by
  rw [upsert_device_from_scan, h]

lemma mergeRow_fresh (ip sku bh bs wh ws mac : Option String) (raw : String) (seen : Int) :
    mergeRow ip sku bh bs wh ws mac raw seen (freshRow ip sku bh bs wh ws mac raw seen)
      = freshRow ip sku bh bs wh ws mac raw seen := by
  simp [mergeRow, freshRow, coalesce_self]

lemma mergeRow_mergeRow (ip sku bh bs wh ws mac : Option String) (raw : String) (seen : Int)
    (b : DeviceRow) :
    mergeRow ip sku bh bs wh ws mac raw seen (mergeRow ip sku bh bs wh ws mac raw seen b)
      = mergeRow ip sku bh bs wh ws mac raw seen b := by
  simp [mergeRow, coalesce_coalesce]

/-- C1: after observation A sets ip and sku and observation B for the same
device carries only mac, the stored row keeps A's ip and sku, gains B's
mac, and the four version fields are untouched by B. -/
theorem upsert_partial_merge (db : Store) (dev ipA skuA : String)
    (bh bs wh ws macA : Option String) (rawA : String) (seenA : Int)
    (mB rawB : String) (seenB : Int) :
    ∃ rowA rowB : DeviceRow,
      (upsert_device_from_scan db dev (some ipA) (some skuA)
          bh bs wh ws macA rawA seenA).devices.lookup dev = some rowA
      ∧ (upsert_device_from_scan
            (upsert_device_from_scan db dev (some ipA) (some skuA) bh bs wh ws macA rawA seenA)
            dev none none none none none none (some mB) rawB seenB).devices.lookup dev
          = some rowB
      ∧ rowA.ip = some ipA ∧ rowA.sku = some skuA
      ∧ rowB.ip = some ipA ∧ rowB.sku = some skuA ∧ rowB.mac = some mB
      ∧ rowB.ble_version_hard = rowA.ble_version_hard
      ∧ rowB.ble_version_soft = rowA.ble_version_soft
      ∧ rowB.wifi_version_hard = rowA.wifi_version_hard
      ∧ rowB.wifi_version_soft = rowA.wifi_version_soft := by
  have h1 := lookup_upsert db dev (some ipA) (some skuA) bh bs wh ws macA rawA seenA
  rcases hA : db.devices.lookup dev with - | old <;> rw [hA] at h1 <;>
  · have h2 := lookup_upsert
      (upsert_device_from_scan db dev (some ipA) (some skuA) bh bs wh ws macA rawA seenA)
      dev none none none none none none (some mB) rawB seenB
    rw [h1] at h2
    exact ⟨_, _, h1, h2, rfl, rfl, rfl, rfl, rfl, rfl, rfl, rfl, rfl⟩

/-- C6: applying the same scan observation twice is idempotent on the whole
store; the device row after the upsert carries last_seen_ms = the
observation time unconditionally, and first_seen_ms keeps the stored value
when the device already existed (the observation time otherwise). -/
theorem upsert_idempotent (db : Store) (dev : String) (ip sku bh bs wh ws mac : Option String)
    (raw : String) (seen : Int) :
    upsert_device_from_scan
        (upsert_device_from_scan db dev ip sku bh bs wh ws mac raw seen)
        dev ip sku bh bs wh ws mac raw seen
      = upsert_device_from_scan db dev ip sku bh bs wh ws mac raw seen
    ∧ ∃ row, (upsert_device_from_scan db dev ip sku bh bs wh ws mac raw seen).devices.lookup dev
          = some row
        ∧ row.last_seen_ms = seen
        ∧ row.first_seen_ms = ((db.devices.lookup dev).map DeviceRow.first_seen_ms).getD seen := by
  constructor
  · rcases hA : db.devices.lookup dev with - | old
    · rw [upsert_eq_insert db dev ip sku bh bs wh ws mac raw seen hA]
      have h1 : (db.devices ++ [(dev, freshRow ip sku bh bs wh ws mac raw seen)]).lookup dev
          = some (freshRow ip sku bh bs wh ws mac raw seen) := by
        rw [lookup_append_right _ _ _ hA]
        simp [List.lookup]
      rw [upsert_eq_update _ dev ip sku bh bs wh ws mac raw seen _ h1]
      simp only [Store.mk.injEq, and_true, true_and]
      rw [List.map_append, map_updateEntry_of_lookup_none _ _ _ hA]
      simp [updateEntry, mergeRow_fresh]
    · rw [upsert_eq_update db dev ip sku bh bs wh ws mac raw seen old hA]
      have h1 : ((db.devices.map (updateEntry dev
            (mergeRow ip sku bh bs wh ws mac raw seen))).lookup dev)
          = some (mergeRow ip sku bh bs wh ws mac raw seen old) := by
        rw [lookup_map_updateEntry, hA]
        rfl
      rw [upsert_eq_update _ dev ip sku bh bs wh ws mac raw seen _ h1]
      simp only [Store.mk.injEq, and_true, true_and]
      rw [map_updateEntry_comp]
      exact map_updateEntry_congr _ _ _ _
        (fun b => mergeRow_mergeRow ip sku bh bs wh ws mac raw seen b)
  · have h := lookup_upsert db dev ip sku bh bs wh ws mac raw seen
    rcases hA : db.devices.lookup dev with - | old <;> rw [hA] at h
    · exact ⟨_, h, rfl, by simp [freshRow]⟩
    · exact ⟨_, h, rfl, by simp [mergeRow]⟩

lemma restore_timeout_self (sock : Sock) : restore_timeout sock.timeout sock = sock := by
  cases sock with
  | mk t0 => cases t0 <;> rfl

lemma interrogate_device_timeout (sock : Sock) (trace : List LoopStep)
    (d s : Option String)
    (htrace : trace = [] ∨ ∃ q, trace = [⟨q, SendRecv.timedOut⟩]) :
    interrogate_device_dev_status sock trace d s = (sock, (false, none, some "timeout")) := by
  rcases htrace with rfl | ⟨q, rfl⟩
  · simp [interrogate_device_dev_status, interrogate_loop, restore_timeout_self]
  · cases sock with
    | mk t0 =>
      cases t0 <;>
        simp [interrogate_device_dev_status, interrogate_loop, restore_timeout]

/-- C7: a devStatus interrogation in which no bytes arrive before the
deadline appends exactly one Interrogation row — success false, error
timeout, received_at null — leaves the devices and device_kv tables
untouched, and the interrogate_all loop then continues with the remaining
targets on the same socket. -/
theorem interrogate_timeout_records_row (db : Store) (sock : Sock) (enrich : Bool)
    (job : InterrogateJob) (rest : List InterrogateJob)
    (htrace : job.trace = [] ∨ ∃ q, job.trace = [⟨q, SendRecv.timedOut⟩]) :
    ∃ row : InterrogationRow,
      interrogate_one db sock enrich job =
        ({ db with interrogations := db.interrogations ++ [row] }, sock)
      ∧ row.success = false ∧ row.error = some "timeout" ∧ row.received_at_ms = none
      ∧ row.device_id = job.target.device_id ∧ row.ip = job.target.ip
      ∧ row.cmd = "devStatus" ∧ row.sent_at_ms = job.sent_ms ∧ row.response_json = none
      ∧ interrogate_all_loop db sock enrich (job :: rest)
          = interrogate_all_loop { db with interrogations := db.interrogations ++ [row] }
              sock enrich rest := by
  have hdev := interrogate_device_timeout sock job.trace job.target.device_id
    job.target.sku htrace
  have hmain : interrogate_one db sock enrich job =
      ({ db with interrogations := db.interrogations ++
          [{ device_id := job.target.device_id,
             ip := job.target.ip,
             cmd := "devStatus",
             sent_at_ms := job.sent_ms,
             received_at_ms := none,
             success := false,
             error := some "timeout",
             request_json := build_dev_status_request job.target.device_id job.target.sku,
             response_json := none }] }, sock) := by
    simp [interrogate_one, hdev, record_interrogation]
  exact ⟨_, hmain, rfl, rfl, rfl, rfl, rfl, rfl, rfl, rfl,
    by rw [interrogate_all_loop, hmain]⟩

/-- Witness for C7: the timeout record at a concrete empty store, a 2
second socket timeout and an immediately expiring trace. -/
theorem interrogate_timeout_records_row_witness :
    ∃ row : InterrogationRow,
      interrogate_one (Store.mk [] [] []) (Sock.mk (some 2)) true
          (InterrogateJob.mk (Target.mk (some "ABCD") "10.0.0.5" none) [] 5 9)
        = (Store.mk [] ([] ++ [row]) [], Sock.mk (some 2))
      ∧ row.success = false ∧ row.error = some "timeout" ∧ row.received_at_ms = none
      ∧ row.device_id = some "ABCD" ∧ row.ip = "10.0.0.5" ∧ row.cmd = "devStatus"
      ∧ row.sent_at_ms = 5 ∧ row.response_json = none
      ∧ interrogate_all_loop (Store.mk [] [] []) (Sock.mk (some 2)) true
          [InterrogateJob.mk (Target.mk (some "ABCD") "10.0.0.5" none) [] 5 9]
        = interrogate_all_loop (Store.mk [] ([] ++ [row]) []) (Sock.mk (some 2)) true [] :=
  interrogate_timeout_records_row (Store.mk [] [] []) (Sock.mk (some 2)) true
    (InterrogateJob.mk (Target.mk (some "ABCD") "10.0.0.5" none) [] 5 9) [] (Or.inl rfl)

lemma lookup_append_single_other {κ β : Type} [BEq κ] [LawfulBEq κ]
    (l : List (κ × β)) (e : κ × β) (k : κ) (hne : k ≠ e.1) :
    (l ++ [e]).lookup k = l.lookup k := by
  induction l with
  | nil =>
    obtain ⟨q, v⟩ := e
    simp only [List.nil_append, List.lookup,
      beq_eq_false_iff_ne.mpr hne]
  | cons hd tl ih =>
    obtain ⟨q, v⟩ := hd
    cases hq : (k == q) <;> simp [List.lookup, hq, ih]

lemma lookup_map_updateEntry_other {κ β : Type} [DecidableEq κ] [BEq κ] [LawfulBEq κ]
    (l : List (κ × β)) (k k' : κ) (f : β → β) (hne : k' ≠ k) :
    (l.map (updateEntry k f)).lookup k' = l.lookup k' := by
  induction l with
  | nil => rfl
  | cons hd tl ih =>
    obtain ⟨q, v⟩ := hd
    by_cases h : q = k
    · subst h
      have hb : (k' == q) = false := beq_eq_false_iff_ne.mpr hne
      rw [List.map_cons, show updateEntry q f (q, v) = (q, f v) from by simp [updateEntry]]
      simp [List.lookup, hb, ih]
    · rw [List.map_cons, show updateEntry k f (q, v) = (q, v) from by simp [updateEntry, h]]
      cases hq : (k' == q) <;> simp [List.lookup, hq, ih]

lemma lookup_set_kv_self (db : Store) (d k : String) (v : Json) (n : Int) :
    (set_kv db d k v n).device_kv.lookup (d, k) = some (v, n) := by
  rw [set_kv]
  cases h : db.device_kv.lookup (d, k) with
  | none =>
    simp only [h]
    rw [lookup_append_right _ _ _ h]
    simp [List.lookup]
  | some _ =>
    simp only [h]
    rw [lookup_map_updateEntry, h]
    rfl

lemma lookup_set_kv_other (db : Store) (d k : String) (v : Json) (n : Int)
    (d' k' : String) (hne : (d', k') ≠ (d, k)) :
    (set_kv db d k v n).device_kv.lookup (d', k') = db.device_kv.lookup (d', k') := by
  rw [set_kv]
  cases h : db.device_kv.lookup (d, k) with
  | none =>
    simp only [h]
    exact lookup_append_single_other _ _ _ hne
  | some _ =>
    simp only [h]
    exact lookup_map_updateEntry_other _ _ _ _ hne

lemma set_kv_interrogations (db : Store) (d k : String) (v : Json) (n : Int) :
    (set_kv db d k v n).interrogations = db.interrogations := by
  rw [set_kv]
  cases h : db.device_kv.lookup (d, k) <;> simp

lemma interrogate_device_unexpected (sock : Sock) (jf mf : List (String × Json))
    (c : String) (hc : c ≠ "devStatus")
    (hmsg : jf.lookup "msg" = some (Json.obj mf))
    (hcmd : mf.lookup "cmd" = some (Json.str c))
    (q : ℚ) (d s : Option String) :
    interrogate_device_dev_status sock [⟨q, SendRecv.datagram (some (Json.obj jf))⟩] d s
      = (sock, (true, some (Json.obj jf), some "unexpected_cmd")) := by
  have hresp : is_dev_status_response (Json.obj jf) = false := by
    simp [is_dev_status_response, Json.getField, hmsg, hcmd, hc]
  cases sock with
  | mk t0 =>
    cases t0 <;>
      simp [interrogate_device_dev_status, interrogate_loop, restore_timeout,
        Json.isObj, hresp]

/-- C10: any JSON-object reply carrying a command name other than devStatus
is still classified a successful interrogation — returned with success
true, the reply preserved, and error unexpected_cmd — and with enrichment
on and a known device id the onOff, brightness, color and colorTemInKelvin
fields of its msg.data are all written to device_kv rows: enrichment never
checks the reply's command name. -/
theorem unexpected_cmd_success_and_enrich (db : Store) (sock : Sock)
    (id : String) (hid : id ≠ "") (ip : String) (sku : Option String)
    (jfields mfields ds : List (String × Json)) (c : String)
    (hc : c ≠ "devStatus")
    (hmsg : jfields.lookup "msg" = some (Json.obj mfields))
    (hcmd : mfields.lookup "cmd" = some (Json.str c))
    (hdata : mfields.lookup "data" = some (Json.obj ds))
    (v1 v2 v3 v4 : Json)
    (h1 : ds.lookup "onOff" = some v1)
    (h2 : ds.lookup "brightness" = some v2)
    (h3 : ds.lookup "color" = some v3)
    (h4 : ds.lookup "colorTemInKelvin" = some v4)
    (q : ℚ) (sent recv : Int) :
    (∀ (jf mf : List (String × Json)) (cname : String) (qr : ℚ) (d s : Option String),
      cname ≠ "devStatus" →
      jf.lookup "msg" = some (Json.obj mf) →
      mf.lookup "cmd" = some (Json.str cname) →
      (interrogate_device_dev_status sock
          [⟨qr, SendRecv.datagram (some (Json.obj jf))⟩] d s).2
        = (true, some (Json.obj jf), some "unexpected_cmd"))
    ∧ ∃ row : InterrogationRow,
      (interrogate_one db sock true
          ⟨⟨some id, ip, sku⟩,
           [⟨q, SendRecv.datagram (some (Json.obj jfields))⟩],
           sent, recv⟩).1.interrogations = db.interrogations ++ [row]
      ∧ row.success = true ∧ row.error = some "unexpected_cmd"
      ∧ row.received_at_ms = some recv
      ∧ row.response_json = some (Json.obj jfields)
      ∧ (interrogate_one db sock true
          ⟨⟨some id, ip, sku⟩,
           [⟨q, SendRecv.datagram (some (Json.obj jfields))⟩],
           sent, recv⟩).1.device_kv.lookup (id, "status.onOff") = some (v1, recv)
      ∧ (interrogate_one db sock true
          ⟨⟨some id, ip, sku⟩,
           [⟨q, SendRecv.datagram (some (Json.obj jfields))⟩],
           sent, recv⟩).1.device_kv.lookup (id, "status.brightness") = some (v2, recv)
      ∧ (interrogate_one db sock true
          ⟨⟨some id, ip, sku⟩,
           [⟨q, SendRecv.datagram (some (Json.obj jfields))⟩],
           sent, recv⟩).1.device_kv.lookup (id, "status.color") = some (v3, recv)
      ∧ (interrogate_one db sock true
          ⟨⟨some id, ip, sku⟩,
           [⟨q, SendRecv.datagram (some (Json.obj jfields))⟩],
           sent, recv⟩).1.device_kv.lookup (id, "status.colorTemInKelvin")
          = some (v4, recv) := by
  have hdev := interrogate_device_unexpected sock jfields mfields c hc hmsg hcmd q
    (some id) sku
  have htruthy : optJsonTruthy (some (Json.obj jfields)) = true := by
    cases jfields with
    | nil => simp [List.lookup] at hmsg
    | cons a l => rfl
  have hextract : extract_status_data (Json.obj jfields) = some ds := by
    simp [extract_status_data, Json.getField, hmsg, hdata]
  cases ds with
  | nil => simp [List.lookup] at h1
  | cons d0 dtl =>
    refine ⟨fun jf mf cname qr d s hc' hmsg' hcmd' =>
        congrArg Prod.snd (interrogate_device_unexpected sock jf mf cname hc' hmsg' hcmd' qr d s),
      ⟨⟨some id, ip, "devStatus", sent, some recv, true, some "unexpected_cmd",
        build_dev_status_request (some id) sku, some (Json.obj jfields)⟩,
      ?_, rfl, rfl, rfl, rfl, ?_, ?_, ?_, ?_⟩⟩
    · simp [interrogate_one, hdev, record_interrogation, hid, enrich_from_dev_status,
        hextract, htruthy, h1, h2, h3, h4, optStrTruthy, set_kv_interrogations]
    · simp [interrogate_one, hdev, record_interrogation, hid, enrich_from_dev_status,
        hextract, htruthy, h1, h2, h3, h4, optStrTruthy]
      rw [lookup_set_kv_other _ _ _ _ _ _ _ (by simp),
        lookup_set_kv_other _ _ _ _ _ _ _ (by simp),
        lookup_set_kv_other _ _ _ _ _ _ _ (by simp), lookup_set_kv_self]
    · simp [interrogate_one, hdev, record_interrogation, hid, enrich_from_dev_status,
        hextract, htruthy, h1, h2, h3, h4, optStrTruthy]
      rw [lookup_set_kv_other _ _ _ _ _ _ _ (by simp),
        lookup_set_kv_other _ _ _ _ _ _ _ (by simp), lookup_set_kv_self]
    · simp [interrogate_one, hdev, record_interrogation, hid, enrich_from_dev_status,
        hextract, htruthy, h1, h2, h3, h4, optStrTruthy]
      rw [lookup_set_kv_other _ _ _ _ _ _ _ (by simp), lookup_set_kv_self]
    · simp [interrogate_one, hdev, record_interrogation, hid, enrich_from_dev_status,
        hextract, htruthy, h1, h2, h3, h4, optStrTruthy]
      rw [lookup_set_kv_self]

/-- Witness for C10: the theorem applied to a concrete store, socket and a
status-named reply whose msg.data carries all four enrichment fields. -/
theorem unexpected_cmd_success_and_enrich_witness :
    (∀ (jf mf : List (String × Json)) (cname : String) (qr : ℚ) (d s : Option String),
      cname ≠ "devStatus" →
      jf.lookup "msg" = some (Json.obj mf) →
      mf.lookup "cmd" = some (Json.str cname) →
      (interrogate_device_dev_status (Sock.mk (some 2))
          [⟨qr, SendRecv.datagram (some (Json.obj jf))⟩] d s).2
        = (true, some (Json.obj jf), some "unexpected_cmd"))
    ∧ ∃ row : InterrogationRow,
      (interrogate_one (Store.mk [] [] []) (Sock.mk (some 2)) true
          ⟨⟨some "ABCD", "10.0.0.5", none⟩,
           [⟨1, SendRecv.datagram (some (Json.obj
             [("msg", Json.obj [("cmd", Json.str "status"), ("data", Json.obj [("onOff", Json.num 1), ("brightness", Json.num 80), ("color", Json.num 2), ("colorTemInKelvin", Json.num 3000)])])]))⟩],
           5, 9⟩).1.interrogations
        = (Store.mk [] [] []).interrogations ++ [row]
      ∧ row.success = true ∧ row.error = some "unexpected_cmd"
      ∧ row.received_at_ms = some 9
      ∧ row.response_json = some (Json.obj
          [("msg", Json.obj [("cmd", Json.str "status"), ("data", Json.obj [("onOff", Json.num 1), ("brightness", Json.num 80), ("color", Json.num 2), ("colorTemInKelvin", Json.num 3000)])])])
      ∧ (interrogate_one (Store.mk [] [] []) (Sock.mk (some 2)) true
          ⟨⟨some "ABCD", "10.0.0.5", none⟩,
           [⟨1, SendRecv.datagram (some (Json.obj
             [("msg", Json.obj [("cmd", Json.str "status"), ("data", Json.obj [("onOff", Json.num 1), ("brightness", Json.num 80), ("color", Json.num 2), ("colorTemInKelvin", Json.num 3000)])])]))⟩],
           5, 9⟩).1.device_kv.lookup ("ABCD", "status.onOff") = some (Json.num 1, 9)
      ∧ (interrogate_one (Store.mk [] [] []) (Sock.mk (some 2)) true
          ⟨⟨some "ABCD", "10.0.0.5", none⟩,
           [⟨1, SendRecv.datagram (some (Json.obj
             [("msg", Json.obj [("cmd", Json.str "status"), ("data", Json.obj [("onOff", Json.num 1), ("brightness", Json.num 80), ("color", Json.num 2), ("colorTemInKelvin", Json.num 3000)])])]))⟩],
           5, 9⟩).1.device_kv.lookup ("ABCD", "status.brightness") = some (Json.num 80, 9)
      ∧ (interrogate_one (Store.mk [] [] []) (Sock.mk (some 2)) true
          ⟨⟨some "ABCD", "10.0.0.5", none⟩,
           [⟨1, SendRecv.datagram (some (Json.obj
             [("msg", Json.obj [("cmd", Json.str "status"), ("data", Json.obj [("onOff", Json.num 1), ("brightness", Json.num 80), ("color", Json.num 2), ("colorTemInKelvin", Json.num 3000)])])]))⟩],
           5, 9⟩).1.device_kv.lookup ("ABCD", "status.color") = some (Json.num 2, 9)
      ∧ (interrogate_one (Store.mk [] [] []) (Sock.mk (some 2)) true
          ⟨⟨some "ABCD", "10.0.0.5", none⟩,
           [⟨1, SendRecv.datagram (some (Json.obj
             [("msg", Json.obj [("cmd", Json.str "status"), ("data", Json.obj [("onOff", Json.num 1), ("brightness", Json.num 80), ("color", Json.num 2), ("colorTemInKelvin", Json.num 3000)])])]))⟩],
           5, 9⟩).1.device_kv.lookup ("ABCD", "status.colorTemInKelvin")
          = some (Json.num 3000, 9) :=
  unexpected_cmd_success_and_enrich (Store.mk [] [] []) (Sock.mk (some 2)) "ABCD"
    (by decide) "10.0.0.5" none
    [("msg", Json.obj [("cmd", Json.str "status"), ("data", Json.obj [("onOff", Json.num 1), ("brightness", Json.num 80), ("color", Json.num 2), ("colorTemInKelvin", Json.num 3000)])])]
    [("cmd", Json.str "status"), ("data", Json.obj [("onOff", Json.num 1), ("brightness", Json.num 80), ("color", Json.num 2), ("colorTemInKelvin", Json.num 3000)])]
    [("onOff", Json.num 1), ("brightness", Json.num 80), ("color", Json.num 2), ("colorTemInKelvin", Json.num 3000)]
    "status" (by decide) rfl rfl rfl
    (Json.num 1) (Json.num 80) (Json.num 2) (Json.num 3000) rfl rfl rfl rfl 1 5 9

end Govee
